import Mathlib

set_option maxRecDepth 8000

/-!
Shallow embedding of `app.py` (Instructor Quiz Generator for Colab).

Python strings are modelled as lists of Unicode code points (`PyStr`);
Python ints as `Nat`; the float division in the emitted grading routine as
exact rational division (`ℚ`), which agrees with the IEEE computation on all
realistic score/total pairs.  `hashlib.sha256(...).hexdigest()` is embedded
as a full executable SHA-256 over the UTF-8 encoding of the string.
-/

/-- A Python string, modelled as its list of Unicode code points. -/
abbrev PyStr := List Nat

/-- Code points of a Lean string literal, used to write `PyStr` constants. -/
def pstr (s : String) : PyStr := s.toList.map Char.toNat

/-- Model of Python `str.lower` on one code point (ASCII case mapping,
which is all the app's inputs exercise). -/
def lowerCp (c : Nat) : Nat := if 65 ≤ c ∧ c ≤ 90 then c + 32 else c

/-- Code points stripped by Python `str.strip()` with no argument
(space, tab, newline, vertical tab, form feed, carriage return). -/
def isSpaceCp (c : Nat) : Bool :=
  c == 32 || c == 9 || c == 10 || c == 11 || c == 12 || c == 13

/-- Model of Python `str.lower`. -/
def pyLower (s : PyStr) : PyStr := s.map lowerCp

/-- Model of Python `str.lstrip()`. -/
def lstrip (s : PyStr) : PyStr := s.dropWhile isSpaceCp

/-- Model of Python `str.rstrip()`. -/
def rstrip (s : PyStr) : PyStr := (s.reverse.dropWhile isSpaceCp).reverse

/-- Model of Python `str.strip()`. -/
def pyStrip (s : PyStr) : PyStr := rstrip (lstrip s)

/-- UTF-8 encoding of one code point, as Python `str.encode()` performs it. -/
def utf8EncodeChar (c : Nat) : List Nat :=
  if c < 128 then [c]
  else if c < 2048 then [192 + c / 64, 128 + c % 64]
  else if c < 65536 then [224 + c / 4096, 128 + c / 64 % 64, 128 + c % 64]
  else [240 + c / 262144, 128 + c / 4096 % 64, 128 + c / 64 % 64, 128 + c % 64]

/-- UTF-8 encoding of a string (Python `str.encode()`). -/
def utf8Encode (s : PyStr) : List Nat := (s.map utf8EncodeChar).flatten

/-! ### SHA-256 (as used by `hashlib.sha256(...).hexdigest()`) -/

/-- Truncate to a 32-bit word. -/
def w32 (n : Nat) : Nat := n % 4294967296

/-- Right rotation of a 32-bit word. -/
def rotr (n x : Nat) : Nat := w32 ((x >>> n) ||| (x <<< (32 - n)))

/-- 32-bit bitwise complement. -/
def notW (x : Nat) : Nat := 4294967295 ^^^ x

/-- SHA-256 round constants. -/
def K256 : List Nat :=
  [1116352408, 1899447441, 3049323471, 3921009573, 961987163,
   1508970993, 2453635748, 2870763221, 3624381080, 310598401,
   607225278, 1426881987, 1925078388, 2162078206, 2614888103,
   3248222580, 3835390401, 4022224774, 264347078, 604807628,
   770255983, 1249150122, 1555081692, 1996064986, 2554220882,
   2821834349, 2952996808, 3210313671, 3336571891, 3584528711,
   113926993, 338241895, 666307205, 773529912, 1294757372,
   1396182291, 1695183700, 1986661051, 2177026350, 2456956037,
   2730485921, 2820302411, 3259730800, 3345764771, 3516065817,
   3600352804, 4094571909, 275423344, 430227734, 506948616,
   659060556, 883997877, 958139571, 1322822218, 1537002063,
   1747873779, 1955562222, 2024104815, 2227730452, 2361852424,
   2428436474, 2756734187, 3204031479, 3329325298]

/-- SHA-256 initial hash state. -/
def H256 : List Nat :=
  [1779033703, 3144134277, 1013904242, 2773480762, 1359893119,
   2600822924, 528734635, 1541459225]

/-- Big-endian byte encoding of `n` on `k` bytes. -/
def toBytesBE : Nat → Nat → List Nat
  | 0, _ => []
  | k + 1, n => toBytesBE k (n >>> 8) ++ [n % 256]

/-- SHA-256 message padding: append `0x80`, zeros to 56 mod 64, then the
bit length on 8 bytes. -/
def padMsg (msg : List Nat) : List Nat :=
  let padZeros := (119 - msg.length % 64) % 64
  msg ++ [128] ++ List.replicate padZeros 0 ++ toBytesBE 8 (8 * msg.length)

/-- Group bytes into big-endian 32-bit words. -/
def bytesToWords : List Nat → List Nat
  | a :: b :: c :: d :: rest =>
      (a * 16777216 + b * 65536 + c * 256 + d) :: bytesToWords rest
  | _ => []

/-- The σ₀ message-schedule function. -/
def ssig0 (x : Nat) : Nat := (rotr 7 x) ^^^ (rotr 18 x) ^^^ (x >>> 3)

/-- The σ₁ message-schedule function. -/
def ssig1 (x : Nat) : Nat := (rotr 17 x) ^^^ (rotr 19 x) ^^^ (x >>> 10)

/-- The Σ₀ compression function. -/
def bsig0 (x : Nat) : Nat := (rotr 2 x) ^^^ (rotr 13 x) ^^^ (rotr 22 x)

/-- The Σ₁ compression function. -/
def bsig1 (x : Nat) : Nat := (rotr 6 x) ^^^ (rotr 11 x) ^^^ (rotr 25 x)

/-- Extend a 16-word block by `k` further schedule words. -/
def extendW (w : List Nat) : Nat → List Nat
  | 0 => w
  | k + 1 =>
    let p := extendW w k
    let t := p.length
    p ++ [w32 (ssig1 (p.getD (t - 2) 0) + p.getD (t - 7) 0 +
               ssig0 (p.getD (t - 15) 0) + p.getD (t - 16) 0)]

/-- One SHA-256 compression round on the 8-word working state. -/
def round1 (ki wi : Nat) (s : List Nat) : List Nat :=
  match s with
  | [a, b, c, d, e, f, g, h] =>
    let ch := (e &&& f) ^^^ (notW e &&& g)
    let maj := (a &&& b) ^^^ (a &&& c) ^^^ (b &&& c)
    let t1 := w32 (h + bsig1 e + ch + ki + wi)
    let t2 := w32 (bsig0 a + maj)
    [w32 (t1 + t2), a, b, c, w32 (d + t1), e, f, g]
  | s => s

/-- Compress one 16-word block into the hash state. -/
def compress (h : List Nat) (block : List Nat) : List Nat :=
  let w := extendW block 48
  let s := (List.zip K256 w).foldl (fun st p => round1 p.1 p.2 st) h
  List.zipWith (fun x y => w32 (x + y)) h s

/-- Fold the compression function over all 64-byte blocks, with a
structural fuel bound (each step consumes 64 bytes, so any fuel at least
the byte count suffices). -/
def sha256BlocksGo : Nat → List Nat → List Nat → List Nat
  | 0, h, _ => h
  | fuel + 1, h, bs =>
    match bs with
    | [] => h
    | _ :: _ => sha256BlocksGo fuel (compress h (bytesToWords (bs.take 64))) (bs.drop 64)

/-- Fold the compression function over all 64-byte blocks. -/
def sha256Blocks (h : List Nat) (bs : List Nat) : List Nat :=
  sha256BlocksGo bs.length h bs

/-- Lowercase hex digit for a nibble, as a code point. -/
def hexDigitCp (n : Nat) : Nat := if n < 10 then 48 + n else 87 + n

/-- Lowercase hex rendering of a 32-bit word on 8 digits. -/
def wordToHex (n : Nat) : PyStr :=
  (List.range 8).map (fun i => hexDigitCp ((n >>> (4 * (7 - i))) % 16))

/-- Model of Python `hashlib.sha256(s.encode()).hexdigest()`. -/
def sha256hex (s : PyStr) : PyStr :=
  ((sha256Blocks H256 (padMsg (utf8Encode s))).map wordToHex).flatten

example :
    sha256hex (pstr "") =
      pstr "e3b0c44298fc1c149afbf4c8996fb92427ae41e4649b934ca495991b7852b855" := by
  decide

example :
    sha256hex (pstr "abc") =
      pstr "ba7816bf8f01cfea414140de5dae2223b00361a396177a9cb410ff61f20015ad" := by
  decide

example :
    sha256hex (pstr "abcdbcdecdefdefgefghfghighijhijkijkljklmklmnlmnomnopnopq") =
      pstr "248d6a61d20638b8e5c026930c3e6039a33ce45964ff2167f6ecedd419db06c1" := by
  decide

/-! ### Question parsing (`generate_python_code`, app.py lines 66-89) -/

/-- One parsed question record, as built by `generate_python_code`.
Multiple-choice records carry an `options` field; text-answer records do
not, which the embedding renders as `options = none`. -/
structure QuestionRecord where
  question : PyStr
  options : Option (List PyStr)
  answer_hash : PyStr
deriving DecidableEq

/-- The `"Multiple Choice"` quiz-type selector value compared against in
`generate_python_code`. -/
def mcLabel : PyStr := pstr "Multiple Choice"

/-- The other selectbox value, `"Text Answer"`. -/
def taLabel : PyStr := pstr "Text Answer"

/-- The comma-split, trimmed fields of one input line:
`parts = [p.strip() for p in line.split(",")]`. -/
def lineParts (line : PyStr) : List PyStr := (line.splitOn 44).map pyStrip

/-- Parse one non-blank input line, mirroring the per-line body of the loop
in `generate_python_code`: multiple-choice lines need at least 3 fields
(first = question, middle = options, last = answer); any other quiz type
takes the text-answer branch and needs at least 2 fields (second = answer).
Malformed lines yield `none` (`continue` in the source).  The answer field
is lowercased and digested; the plaintext is not stored. -/
def parseLine (quiz_type : PyStr) (line : PyStr) : Option QuestionRecord :=
  if quiz_type = mcLabel then
    if (lineParts line).length < 3 then none
    else some
      { question := (lineParts line).headD []
        options := some (((lineParts line).drop 1).dropLast)
        answer_hash := sha256hex (pyLower ((lineParts line).getLastD [])) }
  else
    if (lineParts line).length < 2 then none
    else some
      { question := (lineParts line).headD []
        options := none
        answer_hash := sha256hex (pyLower ((lineParts line).getD 1 [])) }

/-- The full parsing loop of `generate_python_code`: the input text is
stripped, split into lines, blank lines are skipped (`continue`), and each
remaining line is parsed with `parseLine`. -/
def parseQuestions (quiz_type questions_text : PyStr) : List QuestionRecord :=
  ((pyStrip questions_text).splitOn 10).filterMap fun line =>
    if pyStrip line = [] then none else parseLine quiz_type line

/-- The non-blank lines of the (stripped) input text — the lines the parser
does not skip outright. -/
def nonBlankLines (questions_text : PyStr) : List PyStr :=
  ((pyStrip questions_text).splitOn 10).filter fun line => !(pyStrip line = [])

/-- Minimum number of comma-separated fields the selected quiz type
requires of a line before it produces a record. -/
def minFields (quiz_type : PyStr) : Nat := if quiz_type = mcLabel then 3 else 2

/-! ### The emitted grading routine `eval_quiz` (template lines 141-165)

The emitted script runs in a separate environment; its ambient randomness
(`uuid.uuid4()`) and clock (`datetime.now()`) are modelled by an explicit
`Env` value.  `generate_certificate` draws a fixed-layout PDF; the drawing
calls have no observable outcome in the embedding, so the returned artifact
is modelled as the data rendered on it plus the random filename token and
the issue date. -/

/-- Ambient effects available to the emitted script: the value of
`uuid.uuid4()` and the current date `datetime.now()`. -/
structure Env where
  uuidToken : Nat
  today : Nat
deriving DecidableEq

/-- Model of `generate_certificate`: the PDF artifact, identified by the
data drawn on it, the random unique filename token, and the issue date. -/
structure CertFile where
  name : PyStr
  score : Nat
  total : Nat
  instructor : PyStr
  uuidToken : Nat
  issuedDate : Nat
deriving DecidableEq

/-- Model of `generate_certificate(name, score, total, instructor)`. -/
def generate_certificate (env : Env) (name : PyStr) (score total : Nat)
    (instructor : PyStr) : CertFile :=
  { name := name, score := score, total := total, instructor := instructor
    uuidToken := env.uuidToken, issuedDate := env.today }

/-- Hash a submitted answer exactly as template line 149 does:
`hashlib.sha256(str(ans).lower().strip().encode()).hexdigest()`. -/
def gradeHash (ans : PyStr) : PyStr := sha256hex (pyStrip (pyLower ans))

/-- Whether a submitted answer's grading hash equals a record's stored
`answer_hash` (the comparison on template line 149). -/
def answerMatches (q : QuestionRecord) (ans : PyStr) : Bool :=
  gradeHash ans == q.answer_hash

/-- The full per-answer condition on template line 149: `ans` must be
truthy (non-empty) and its grading hash must match the stored digest. -/
def answerCorrect (q : QuestionRecord) (ans : PyStr) : Bool :=
  !(ans == []) && answerMatches q ans

/-- One iteration of the scoring loop: Python short-circuits `ans and ...`,
so `questions[i]` is only indexed (and can only raise `IndexError`) when
`ans` is truthy.  `none` models the `IndexError`. -/
def checkAnswer (questions : List QuestionRecord) (i : Nat) (ans : PyStr) :
    Option Bool :=
  if ans = [] then some false
  else match questions.get? i with
    | some q => some (answerMatches q ans)
    | none => none

/-- The scoring loop `for i, ans in enumerate(answers)` starting at index
`i`, returning the number of correct answers (or `none` on `IndexError`). -/
def computeScore (questions : List QuestionRecord) :
    Nat → List PyStr → Option Nat
  | _, [] => some 0
  | i, ans :: rest =>
    match checkAnswer questions i ans, computeScore questions (i + 1) rest with
    | some b, some s => some ((if b then 1 else 0) + s)
    | _, _ => none

/-- The pass test on template line 159:
`total_questions > 0 and (score / total_questions) >= passing_threshold`
with `passing_threshold = 0.8`; the float division is modelled as exact
rational division. -/
def passes (score total : Nat) : Bool :=
  decide (0 < total) && decide ((score : ℚ) / (total : ℚ) ≥ (0.8 : ℚ))

/-- Decimal rendering of a Python int inside an f-string. -/
def natToDec (n : Nat) : PyStr := pstr (Nat.repr n)

/-- Model of the emitted `eval_quiz(name, *answers)`: normalizes a blank
name to `"Anonymous"`, scores the answers, and returns the result message
together with the certificate path (`none` when no certificate is issued).
The outer `Option` is `none` when the scoring loop raises `IndexError`. -/
def eval_quiz (env : Env) (instructor : PyStr) (questions : List QuestionRecord)
    (name : PyStr) (answers : List PyStr) : Option (PyStr × Option CertFile) :=
  let nm := if pyStrip name = [] then pstr "Anonymous" else name
  match computeScore questions 0 answers with
  | none => none
  | some score =>
    let total := questions.length
    let msg := pstr "Hi " ++ nm ++ pstr ", your score is: " ++ natToDec score
      ++ pstr " / " ++ natToDec total ++ pstr "."
    if passes score total then
      some (msg ++ pstr " Congratulations, you passed and earned a certificate!",
            some (generate_certificate env nm score total instructor))
    else
      some (msg ++ pstr " A score of 80% is required to receive a certificate.",
            none)

/-! ### Python `repr` of the parsed records

The f-string interpolation `{parsed_questions}` on template line 139 renders
the list of dicts with Python `repr`: single-quoted strings (double quotes
when the text itself holds a single quote and no double quote), with
backslash, quote, and control-character escapes; insertion order of the
dict keys is `question`, (`options`,) `answer_hash`. -/

/-- Quote character Python `repr` picks for a string. -/
def pyReprQuote (s : PyStr) : Nat :=
  if s.contains 39 && !(s.contains 34) then 34 else 39

/-- Escape of one code point inside a Python string `repr` quoted by `q`. -/
def pyReprEscChar (q c : Nat) : PyStr :=
  if c = 92 then [92, 92]
  else if c = q then [92, q]
  else if c = 10 then [92, 110]
  else if c = 13 then [92, 114]
  else if c = 9 then [92, 116]
  else if c < 32 ∨ c = 127 then [92, 120, hexDigitCp (c / 16 % 16), hexDigitCp (c % 16)]
  else [c]

/-- Python `repr` of a string. -/
def pyReprStr (s : PyStr) : PyStr :=
  let q := pyReprQuote s
  [q] ++ (s.map (pyReprEscChar q)).flatten ++ [q]

/-- Join pieces with a separator (Python `", ".join`-style). -/
def joinSep (sep : PyStr) : List PyStr → PyStr
  | [] => []
  | [x] => x
  | x :: y :: xs => x ++ sep ++ joinSep sep (y :: xs)

/-- Python `repr` of a list of strings. -/
def pyReprList (xs : List PyStr) : PyStr :=
  pstr "[" ++ joinSep (pstr ", ") (xs.map pyReprStr) ++ pstr "]"

/-- Python `repr` of one parsed question dict, keys in insertion order. -/
def pyReprRecord (r : QuestionRecord) : PyStr :=
  pstr "\x7b\x27question\x27: " ++ pyReprStr r.question ++
  (match r.options with
   | some os => pstr ", \x27options\x27: " ++ pyReprList os
   | none => []) ++
  pstr ", \x27answer_hash\x27: " ++ pyReprStr r.answer_hash ++ pstr "\x7d"

/-- Python `repr` of the `parsed_questions` list. -/
def pyReprQuestions (rs : List QuestionRecord) : PyStr :=
  pstr "[" ++ joinSep (pstr ", ") (rs.map pyReprRecord) ++ pstr "]"

/-! ### The emitted script template (app.py lines 93-195)

`generate_python_code` returns one f-string.  The fixed text between the
interpolation points `{instructor}` (twice), `{quiz_type}`,
`{parsed_questions}`, and `{title}` is reproduced below with `{{`/`}}`
already collapsed to literal braces, exactly as the f-string evaluates. -/

/-- Template text from the start up to the first `{instructor}`. -/
def tmplA : PyStr := pstr
  ("!pip install gradio reportlab\n"
  ++ "# --- Generated Quiz App ---\n"
  ++ "# Copy and paste this entire code block into a single Google Colab cell and run it.\n"
  ++ "\n"
  ++ "\x69mport gradio as gr\n"
  ++ "\x69mport uuid, os, tempfile, hashlib\n"
  ++ "from reportlab.lib.pagesizes \x69mport A5, landscape\n"
  ++ "from reportlab.pdfgen \x69mport canvas\n"
  ++ "from reportlab.lib.units \x69mport mm\n"
  ++ "from reportlab.lib.colors \x69mport HexColor\n"
  ++ "from datetime \x69mport datetime\n"
  ++ "\n"
  ++ "# Certificate generation function (included for a self-contained script)\n"
  ++ "def generate_certificate(name, score, total, instructor=\"")

/-- Template text from after the first `{instructor}` up to `{quiz_type}`. -/
def tmplB : PyStr := pstr
  ("\"):\n"
  ++ "    unique_id = str(uuid.uuid4())\n"
  ++ "    filename = f\"cert_{unique_id}.pdf\"\n"
  ++ "    filepath = os.path.join(tempfile.gettempdir(), filename)\n"
  ++ "    c = canvas.Canvas(filepath, pagesize=landscape(A5))\n"
  ++ "    width, height = landscape(A5)\n"
  ++ "    c.setFillColor(HexColor(\"#fffdf6\"))\n"
  ++ "    c.rect(0, 0, width, height, stroke=0, fill=1)\n"
  ++ "    c.setStrokeColor(HexColor(\"#001858\"))\n"
  ++ "    c.setLineWidth(3)\n"
  ++ "    margin = 10 * mm\n"
  ++ "    c.rect(margin, margin, width - 2 * margin, height - 2 * margin)\n"
  ++ "    c.setFillColor(HexColor(\"#001858\"))\n"
  ++ "    c.setFont(\"Helvetica-Bold\", 24)\n"
  ++ "    c.drawCentredString(width / 2, height - 60, \"Certificate of Completion\")\n"
  ++ "    c.setFont(\"Helvetica\", 14)\n"
  ++ "    c.drawCentredString(width / 2, height - 100, \"This is awarded to\")\n"
  ++ "    c.setFont(\"Helvetica-Bold\", 18)\n"
  ++ "    c.drawCentredString(width / 2, height - 130, name)\n"
  ++ "    c.setFont(\"Helvetica\", 14)\n"
  ++ "    c.drawCentredString(width / 2, height - 160, \"For successfully completing the quiz\")\n"
  ++ "    c.setFont(\"Helvetica\", 12)\n"
  ++ "    c.drawCentredString(width / 2, height - 185, f\"Score: {score} / {total}\")\n"
  ++ "    c.setFont(\"Helvetica-Oblique\", 10)\n"
  ++ "    c.drawString(margin + 10, margin + 20, f\"Instructor: {instructor}\")\n"
  ++ "    date_str = datetime.now().strftime(\"%d %B %Y\")\n"
  ++ "    c.setFont(\"Helvetica\", 10)\n"
  ++ "    c.drawRightString(width - margin - 10, margin + 20, f\"Issued on: {date_str}\")\n"
  ++ "    c.save()\n"
  ++ "    return filepath\n"
  ++ "\n"
  ++ "# Quiz data (answers are hashed)\n"
  ++ "quiz_type = \"")

/-- Template text between `{quiz_type}` and `{parsed_questions}`. -/
def tmplC : PyStr := pstr "\"\nquestions = "

/-- Template text from after `{parsed_questions}` up to the second
`{instructor}`. -/
def tmplD : PyStr := pstr
  ("\n"
  ++ "\n"
  ++ "def eval_quiz(name, *answers):\n"
  ++ "    \"\"\"\n"
  ++ "    Evaluates the student\x27s answers and generates a certificate only if the score is 80% or higher.\n"
  ++ "    \"\"\"\n"
  ++ "    if not name.strip():\n"
  ++ "        name = \"Anonymous\"\n"
  ++ "    score = 0\n"
  ++ "    for i, ans in enumerate(answers):\n"
  ++ "        if ans and hashlib.sha256(str(ans).lower().strip().encode()).hexdigest() == questions[i][\"answer_hash\"]:\n"
  ++ "            score += 1\n"
  ++ "    \n"
  ++ "    total_questions = len(questions)\n"
  ++ "    passing_threshold = 0.8\n"
  ++ "    \n"
  ++ "    result_message = f\"Hi {name}, your score is: {score} / {total_questions}.\"\n"
  ++ "    cert_path = None # Default to no certificate\n"
  ++ "\n"
  ++ "    # Check if the score meets the passing threshold\n"
  ++ "    if total_questions > 0 and (score / total_questions) >= passing_threshold:\n"
  ++ "        cert_path = generate_certificate(name, score, total_questions, instructor=\"")

/-- Template text from after the second `{instructor}` up to `{title}`. -/
def tmplE : PyStr := pstr
  ("\")\n"
  ++ "        result_message += \" Congratulations, you passed and earned a certificate!\"\n"
  ++ "    else:\n"
  ++ "        result_message += \" A score of 80% is required to receive a certificate.\"\n"
  ++ "\n"
  ++ "    return result_message, cert_path\n"
  ++ "\n"
  ++ "# Gradio interface for the student\n"
  ++ "with gr.Blocks(theme=gr.themes.Soft()) as app:\n"
  ++ "    gr.Markdown(\"## ")

/-- Template text after `{title}` to the end of the script. -/
def tmplF : PyStr := pstr
  ("\")\n"
  ++ "    \n"
  ++ "    with gr.Row():\n"
  ++ "        name = gr.Textbox(label=\"Enter Your Full Name to Generate Certificate\", placeholder=\"e.g., Ada Lovelace\")\n"
  ++ "\n"
  ++ "    answer_inputs = []\n"
  ++ "    for q in questions:\n"
  ++ "        gr.Markdown(\"**Question:** \" + q[\x27question\x27])\n"
  ++ "        if quiz_type == \"Multiple Choice\":\n"
  ++ "            answer_inputs.append(gr.Radio(choices=q[\"options\"], label=\"Select your answer\"))\n"
  ++ "        else:\n"
  ++ "            answer_inputs.append(gr.Textbox(label=\"Type your answer\"))\n"
  ++ "\n"
  ++ "    submit_btn = gr.Button(\"Submit Quiz\")\n"
  ++ "    \n"
  ++ "    with gr.Row():\n"
  ++ "        result_output = gr.Textbox(label=\"Your Result\")\n"
  ++ "        certificate_output = gr.File(label=\"Download Your Certificate\")\n"
  ++ "\n"
  ++ "    submit_btn.click(\n"
  ++ "        fn=eval_quiz, \n"
  ++ "        inputs=[name] + answer_inputs, \n"
  ++ "        outputs=[result_output, certificate_output]\n"
  ++ "    )\n"
  ++ "\n"
  ++ "app.launch(debug=True)\n")

/-- Model of `generate_python_code(title, instructor, quiz_type,
questions_text)`: parse and hash the questions, then substitute the form
fields and the `repr` of the parsed records into the fixed template.  The
function takes an `Env` to make explicit that, unlike the emitted script's
own runtime, generation reads neither the random source nor the clock
(`uuid`/`datetime` occur only inside the emitted string literal). -/
def generate_python_code (env : Env) (title instructor quiz_type questions_text : PyStr) :
    PyStr :=
  let parsed_questions := parseQuestions quiz_type questions_text
  tmplA ++ instructor ++ tmplB ++ quiz_type ++ tmplC
    ++ pyReprQuestions parsed_questions ++ tmplD ++ instructor ++ tmplE
    ++ title ++ tmplF

/-- Outcome of submitting the instructor form (app.py lines 224-231):
either the blocking `st.error` with no generated script, or the generated
script displayed in the code block. -/
inductive FormOutcome where
  | error : FormOutcome
  | code : PyStr → FormOutcome
deriving DecidableEq

/-- The submission handler: `if not all([title, instructor, questions_text])`
shows the blocking error (empty strings are the falsy case); otherwise it
generates and displays the script. -/
def handleSubmit (env : Env) (title instructor quiz_type questions_text : PyStr) :
    FormOutcome :=
  if title = [] ∨ instructor = [] ∨ questions_text = [] then FormOutcome.error
  else FormOutcome.code (generate_python_code env title instructor quiz_type questions_text)

example :
    parseQuestions taLabel (pstr "Q,Paris\n\nbad") =
      [⟨pstr "Q", none, sha256hex (pstr "paris")⟩] := by
  decide

example :
    answerCorrect ⟨pstr "Q", none, sha256hex (pstr "paris")⟩ (pstr " PARIS ") = true := by
  decide


/-! ### Helper lemmas -/

/-- Lowercasing never creates or destroys whitespace. -/
lemma isSpaceCp_lowerCp (c : Nat) : isSpaceCp (lowerCp c) = isSpaceCp c := by
  unfold lowerCp
  by_cases h : 65 ≤ c ∧ c ≤ 90
  · rw [if_pos h]
    have h1 : isSpaceCp (c + 32) = false := by
      simp only [isSpaceCp, Bool.or_eq_false_iff, beq_eq_false_iff_ne, ne_eq]
      omega
    have h2 : isSpaceCp c = false := by
      simp only [isSpaceCp, Bool.or_eq_false_iff, beq_eq_false_iff_ne, ne_eq]
      omega
    rw [h1, h2]
  · rw [if_neg h]

/-- `dropWhile isSpaceCp` commutes with lowercasing. -/
lemma dropWhile_lowerCp (l : PyStr) :
    (l.map lowerCp).dropWhile isSpaceCp = (l.dropWhile isSpaceCp).map lowerCp := by
  induction l with
  | nil => rfl
  | cons c cs ih =>
    simp only [List.map_cons, List.dropWhile_cons, isSpaceCp_lowerCp]
    by_cases h : isSpaceCp c
    · simpa [h] using ih
    · simp [h]

/-- `lstrip` commutes with `pyLower`. -/
lemma lstrip_pyLower (s : PyStr) : lstrip (pyLower s) = pyLower (lstrip s) :=
  dropWhile_lowerCp s

/-- `rstrip` commutes with `pyLower`. -/
lemma rstrip_pyLower (s : PyStr) : rstrip (pyLower s) = pyLower (rstrip s) := by
  unfold rstrip pyLower
  rw [← List.map_reverse, dropWhile_lowerCp, List.map_reverse]

/-- Stripping after lowercasing equals lowercasing after stripping: the two
normalization orders (parse side: strip-then-lower; grade side:
lower-then-strip) agree. -/
lemma pyStrip_pyLower (s : PyStr) : pyStrip (pyLower s) = pyLower (pyStrip s) := by
  unfold pyStrip
  rw [lstrip_pyLower, rstrip_pyLower]

/-- Characterization of `parseLine` on a well-formed multiple-choice line. -/
lemma parseLine_mc_eq (line q a : PyStr) (mids : List PyStr)
    (h : lineParts line = q :: (mids ++ [a])) (hm : mids ≠ []) :
    parseLine mcLabel line = some ⟨q, some mids, sha256hex (pyLower a)⟩ := by
  have hlen : (lineParts line).length = mids.length + 2 := by
    rw [h]; simp
  have hmlen : 1 ≤ mids.length := by
    cases mids with
    | nil => exact absurd rfl hm
    | cons x xs => simp
  have hnot : ¬((lineParts line).length < 3) := by omega
  have hhead : (lineParts line).headD [] = q := by rw [h]; rfl
  have hdrop : ((lineParts line).drop 1).dropLast = mids := by
    rw [h]
    simp [List.dropLast_concat]
  have hlast : (lineParts line).getLastD [] = a := by
    rw [h, ← List.cons_append, List.getLastD_eq_getLast?, List.getLast?_concat]
    rfl
  unfold parseLine
  rw [if_pos rfl, if_neg hnot, hhead, hdrop, hlast]

/-- Characterization of `parseLine` on a well-formed text-answer line (any
quiz type other than `"Multiple Choice"`). -/
lemma parseLine_text_eq (quiz_type line q a : PyStr) (rest : List PyStr)
    (htq : quiz_type ≠ mcLabel) (h : lineParts line = q :: a :: rest) :
    parseLine quiz_type line = some ⟨q, none, sha256hex (pyLower a)⟩ := by
  have hlen : (lineParts line).length = rest.length + 2 := by
    rw [h]; simp
  have hnot : ¬((lineParts line).length < 2) := by omega
  have hhead : (lineParts line).headD [] = q := by rw [h]; rfl
  have hgetd : (lineParts line).getD 1 [] = a := by rw [h]; rfl
  unfold parseLine
  rw [if_neg htq, if_neg hnot, hhead, hgetd]

/-- A line with too few fields for the selected quiz type parses to `none`. -/
lemma parseLine_eq_none (quiz_type line : PyStr)
    (h : (lineParts line).length < minFields quiz_type) :
    parseLine quiz_type line = none := by
  unfold minFields at h
  by_cases hm : quiz_type = mcLabel
  · rw [if_pos hm] at h
    simp only [parseLine, if_pos hm]
    rw [if_pos h]
  · rw [if_neg hm] at h
    simp only [parseLine, if_neg hm]
    rw [if_pos h]

/-- The parsing loop equals `parseLine` filter-mapped over the non-blank
lines. -/
lemma parseQuestions_eq (quiz_type questions_text : PyStr) :
    parseQuestions quiz_type questions_text =
      (nonBlankLines questions_text).filterMap (parseLine quiz_type) := by
  unfold parseQuestions nonBlankLines
  induction ((pyStrip questions_text).splitOn 10) with
  | nil => rfl
  | cons l ls ih =>
    by_cases h : pyStrip l = []
    · simp [List.filterMap_cons, List.filter_cons, h, ih]
    · simp [List.filterMap_cons, List.filter_cons, h, ih]

/-- `filterMap` strictly shrinks a list that holds an element mapped to
`none`. -/
lemma length_filterMap_lt {α β : Type} (f : α → Option β) :
    ∀ (ls : List α) (a : α), a ∈ ls → f a = none →
      (ls.filterMap f).length < ls.length := by
  intro ls
  induction ls with
  | nil => intro a ha; cases ha
  | cons x xs ih =>
    intro a ha hfa
    rcases List.mem_cons.mp ha with h | h
    · subst h
      rw [List.filterMap_cons, hfa]
      have := List.length_filterMap_le f xs
      simp only [List.length_cons]
      omega
    · cases hx : f x with
      | none =>
        rw [List.filterMap_cons, hx]
        have := List.length_filterMap_le f xs
        simp only [List.length_cons]
        omega
      | some b =>
        rw [List.filterMap_cons, hx]
        have := ih a h hfa
        simp only [List.length_cons, List.length_cons]
        omega

/-- The scoring loop never raises `IndexError` when the remaining answers
fit inside the question list. -/
lemma computeScore_some (qs : List QuestionRecord) :
    ∀ (ans : List PyStr) (i : Nat), i + ans.length ≤ qs.length →
      ∃ s, computeScore qs i ans = some s := by
  intro ans
  induction ans with
  | nil => intro i _; exact ⟨0, rfl⟩
  | cons a as ih =>
    intro i h
    have hi : i < qs.length := by
      simp only [List.length_cons] at h
      omega
    have hc : ∃ b, checkAnswer qs i a = some b := by
      unfold checkAnswer
      by_cases ha : a = []
      · exact ⟨false, by rw [if_pos ha]⟩
      · rw [if_neg ha]
        cases hg : qs.get? i with
        | none =>
          have := List.get?_eq_none.mp hg
          omega
        | some q => exact ⟨answerMatches q a, rfl⟩
    obtain ⟨b, hb⟩ := hc
    obtain ⟨s, hs⟩ := ih (i + 1) (by simp only [List.length_cons] at h; omega)
    refine ⟨(if b then 1 else 0) + s, ?_⟩
    simp [computeScore, hb, hs]

/-- The field of a line that the parser digests as the correct answer: the
last trimmed field in multiple-choice mode, the second trimmed field in
text-answer mode. -/
def answerField (quiz_type line : PyStr) : PyStr :=
  if quiz_type = mcLabel then (lineParts line).getLastD []
  else (lineParts line).getD 1 []

/-- Unfolding of the pass test into its two conjuncts. -/
lemma passes_iff (score total : Nat) :
    passes score total = true ↔
      0 < total ∧ (score : ℚ) / (total : ℚ) ≥ (0.8 : ℚ) := by
  simp [passes]

/-- A pass test that fails, unfolded. -/
lemma passes_eq_false_iff (score total : Nat) :
    passes score total = false ↔
      ¬(0 < total ∧ (score : ℚ) / (total : ℚ) ≥ (0.8 : ℚ)) := by
  rw [← Bool.not_eq_true, passes_iff]

example : passes 4 5 = true := (passes_iff 4 5).mpr ⟨by norm_num, by norm_num⟩
example : passes 4 4 = true := (passes_iff 4 4).mpr ⟨by norm_num, by norm_num⟩
example : passes 3 4 = false := by
  rw [passes_eq_false_iff]
  rintro ⟨-, h⟩
  norm_num at h

/-! ### Claim theorems -/

/-- C1: a multiple-choice input line whose comma-split, trimmed field list
is `q :: mids ++ [a]` with `mids` non-empty (at least 3 fields) parses to
exactly one record: question `q`, options exactly the middle fields `mids`
in order, and `answer_hash` the SHA-256 hex digest of the lowercased last
field `a`. -/
theorem mc_line_parse (line q a : PyStr) (mids : List PyStr)
    (h : lineParts line = q :: (mids ++ [a])) (hm : mids ≠ []) :
    parseLine mcLabel line = some ⟨q, some mids, sha256hex (pyLower a)⟩ :=
  parseLine_mc_eq line q a mids h hm

/-- Witness for C1: the line `"Q, a, b, c"`. -/
theorem mc_line_parse_witness :
    parseLine mcLabel (pstr "Q, a, b, c") =
      some ⟨pstr "Q", some [pstr "a", pstr "b"], sha256hex (pyLower (pstr "c"))⟩ :=
  mc_line_parse (pstr "Q, a, b, c") (pstr "Q") (pstr "c") [pstr "a", pstr "b"]
    rfl (by decide)

/-- C2: with any quiz type other than `"Multiple Choice"`, an input line
whose comma-split, trimmed field list is `q :: a :: rest` (at least 2
fields) parses to exactly one record: question `q`, no options, and
`answer_hash` the SHA-256 hex digest of the lowercased answer field `a`. -/
theorem text_line_parse (quiz_type line q a : PyStr) (rest : List PyStr)
    (htq : quiz_type ≠ mcLabel) (h : lineParts line = q :: a :: rest) :
    parseLine quiz_type line = some ⟨q, none, sha256hex (pyLower a)⟩ :=
  parseLine_text_eq quiz_type line q a rest htq h

/-- Witness for C2: the line `"Q, A"` under quiz type `"Text Answer"`. -/
theorem text_line_parse_witness :
    parseLine taLabel (pstr "Q, A") =
      some ⟨pstr "Q", none, sha256hex (pyLower (pstr "A"))⟩ :=
  text_line_parse taLabel (pstr "Q, A") (pstr "Q") (pstr "A") [] (by decide) rfl

/-- C9: in text-answer mode a line with more than 2 fields takes its answer
from the second trimmed field only; the fields after the second are
discarded, so two lines sharing their first two trimmed fields parse
identically. -/
theorem text_extra_fields_dropped (quiz_type l1 l2 q a : PyStr)
    (r1 r2 : List PyStr) (htq : quiz_type ≠ mcLabel)
    (h1 : lineParts l1 = q :: a :: r1) (h2 : lineParts l2 = q :: a :: r2)
    (_hr : r1 ≠ []) :
    parseLine quiz_type l1 = some ⟨q, none, sha256hex (pyLower a)⟩ ∧
    parseLine quiz_type l1 = parseLine quiz_type l2 := by
  have e1 := parseLine_text_eq quiz_type l1 q a r1 htq h1
  have e2 := parseLine_text_eq quiz_type l2 q a r2 htq h2
  exact ⟨e1, e1.trans e2.symm⟩

/-- Witness for C9: `"Q,a,x"` and `"Q,a"` agree, with the hash taken from
`"a"`, not from the last field `"x"`. -/
theorem text_extra_fields_dropped_witness :
    parseLine taLabel (pstr "Q,a,x") =
      some ⟨pstr "Q", none, sha256hex (pyLower (pstr "a"))⟩ ∧
    parseLine taLabel (pstr "Q,a,x") = parseLine taLabel (pstr "Q,a,y") :=
  text_extra_fields_dropped taLabel (pstr "Q,a,x") (pstr "Q,a,y")
    (pstr "Q") (pstr "a") [pstr "x"] [pstr "y"] (by decide) rfl rfl (by decide)

/-- C3 counterexample: the claim fails for an empty submission.  The
text-answer line `"Q, "` stores `answer_hash = sha256("")` (the answer
field `" "` trims to the empty string); the empty submission `""` equals
that field up to case and surrounding whitespace and its grading hash
matches the stored digest, yet the `if ans and ...` truthiness guard on
template line 149 scores it as incorrect. -/
theorem grading_roundtrip_cex :
    parseLine taLabel (pstr "Q, ") = some ⟨pstr "Q", none, sha256hex []⟩ ∧
    pyStrip (pyLower ([] : PyStr)) = pyStrip (pyLower (pstr " ")) ∧
    gradeHash [] = sha256hex [] ∧
    answerCorrect ⟨pstr "Q", none, sha256hex []⟩ [] = false :=
  ⟨rfl, rfl, rfl, rfl⟩

/-- C3 (amended): for a record whose `answer_hash` digests the raw
correct-answer field `field` (lowercase of its trimmed text, as the parser
stores it), every non-empty submission equal to `field` up to letter case
and leading/trailing whitespace hashes to the stored digest and scores as
correct.  (The non-emptiness proviso is forced by the truthiness guard,
see the counterexample.) -/
theorem grading_roundtrip (field sub : PyStr) (r : QuestionRecord)
    (hr : r.answer_hash = sha256hex (pyLower (pyStrip field)))
    (hsub : pyStrip (pyLower sub) = pyStrip (pyLower field))
    (hne : sub ≠ []) :
    gradeHash sub = r.answer_hash ∧ answerCorrect r sub = true := by
  have key : gradeHash sub = r.answer_hash := by
    rw [hr]
    unfold gradeHash
    rw [hsub, pyStrip_pyLower]
  refine ⟨key, ?_⟩
  unfold answerCorrect answerMatches
  rw [key]
  simp [hne]

/-- Witness for C3 (amended): submitting `" PARIS "` against the record
parsed from answer field `"Paris"`. -/
theorem grading_roundtrip_witness :
    gradeHash (pstr " PARIS ") = sha256hex (pyLower (pyStrip (pstr "Paris"))) ∧
    answerCorrect
      ⟨pstr "Q", none, sha256hex (pyLower (pyStrip (pstr "Paris")))⟩
      (pstr " PARIS ") = true :=
  grading_roundtrip (pstr "Paris") (pstr " PARIS ")
    ⟨pstr "Q", none, sha256hex (pyLower (pyStrip (pstr "Paris")))⟩
    rfl (by decide) (by decide)

/-- C5: blank lines are skipped and malformed lines yield no record, so the
parsed sequence never exceeds the non-blank line count, and the presence of
at least one non-blank line with fewer fields than the quiz type's minimum
makes it strictly shorter; the parser is total and reports nothing. -/
theorem malformed_lines_dropped (quiz_type questions_text : PyStr) :
    (parseQuestions quiz_type questions_text).length ≤
      (nonBlankLines questions_text).length ∧
    ((∃ l, l ∈ nonBlankLines questions_text ∧
        (lineParts l).length < minFields quiz_type) →
      (parseQuestions quiz_type questions_text).length <
        (nonBlankLines questions_text).length) := by
  rw [parseQuestions_eq]
  constructor
  · exact List.length_filterMap_le _ _
  · rintro ⟨l, hl, hlt⟩
    exact length_filterMap_lt _ _ l hl (parseLine_eq_none quiz_type l hlt)

/-- Witness for C5: the single malformed multiple-choice line `"a"`. -/
theorem malformed_lines_dropped_witness :
    (parseQuestions mcLabel (pstr "a")).length <
      (nonBlankLines (pstr "a")).length :=
  (malformed_lines_dropped mcLabel (pstr "a")).2 (by decide)

/-- C4: whenever the emitted `eval_quiz` grades a non-empty quiz with one
submitted answer per question, it returns a result message and a
certificate path, and the path is non-`None` exactly when `score / total`
is at least `0.8`; in particular 4/5 and 4/4 pass while 3/4 does not. -/
theorem certificate_threshold :
    (∀ (env : Env) (instructor : PyStr) (qs : List QuestionRecord)
        (name : PyStr) (answers : List PyStr),
        answers.length = qs.length → qs ≠ [] →
        ∃ (score : Nat) (msg : PyStr) (cert : Option CertFile),
          computeScore qs 0 answers = some score ∧
          eval_quiz env instructor qs name answers = some (msg, cert) ∧
          (cert.isSome = true ↔
            (score : ℚ) / (qs.length : ℚ) ≥ (0.8 : ℚ))) ∧
    passes 4 5 = true ∧ passes 4 4 = true ∧ passes 3 4 = false := by
  refine ⟨?_, (passes_iff 4 5).mpr ⟨by norm_num, by norm_num⟩,
    (passes_iff 4 4).mpr ⟨by norm_num, by norm_num⟩, ?_⟩
  · intro env instructor qs name answers hlen h0
    have h0' : 0 < qs.length := List.length_pos.mpr h0
    obtain ⟨score, hscore⟩ := computeScore_some qs answers 0 (by omega)
    have hiff : passes score qs.length = true ↔
        (score : ℚ) / (qs.length : ℚ) ≥ (0.8 : ℚ) := by
      rw [passes_iff]
      exact and_iff_right h0'
    by_cases hp : passes score qs.length = true
    · refine ⟨score,
        pstr "Hi " ++ (if pyStrip name = [] then pstr "Anonymous" else name) ++
          pstr ", your score is: " ++ natToDec score ++ pstr " / " ++
          natToDec qs.length ++ pstr "." ++
          pstr " Congratulations, you passed and earned a certificate!",
        some (generate_certificate env
          (if pyStrip name = [] then pstr "Anonymous" else name)
          score qs.length instructor),
        hscore, ?_, ?_⟩
      · simp only [eval_quiz, hscore]
        rw [if_pos hp]
      · simp only [Option.isSome_some]
        exact iff_of_true (by trivial) (hiff.mp hp)
    · refine ⟨score,
        pstr "Hi " ++ (if pyStrip name = [] then pstr "Anonymous" else name) ++
          pstr ", your score is: " ++ natToDec score ++ pstr " / " ++
          natToDec qs.length ++ pstr "." ++
          pstr " A score of 80% is required to receive a certificate.",
        none, hscore, ?_, ?_⟩
      · simp only [eval_quiz, hscore]
        rw [if_neg hp]
      · simp only [Option.isSome_none]
        exact iff_of_false (by simp) (fun hr => hp (hiff.mpr hr))
  · rw [passes_eq_false_iff]
    rintro ⟨-, h⟩
    norm_num at h

/-- Witness for C4: a one-question quiz answered correctly, plus the 4/5
boundary fact. -/
theorem certificate_threshold_witness :
    (∃ (score : Nat) (msg : PyStr) (cert : Option CertFile),
        computeScore [⟨pstr "Q", none, sha256hex (pstr "a")⟩] 0 [pstr "a"] =
          some score ∧
        eval_quiz ⟨0, 0⟩ (pstr "I") [⟨pstr "Q", none, sha256hex (pstr "a")⟩]
          [] [pstr "a"] = some (msg, cert) ∧
        (cert.isSome = true ↔
          (score : ℚ) /
            (([⟨pstr "Q", none, sha256hex (pstr "a")⟩] :
              List QuestionRecord).length : ℚ) ≥ (0.8 : ℚ))) ∧
    passes 4 5 = true :=
  ⟨certificate_threshold.1 ⟨0, 0⟩ (pstr "I") _ [] [pstr "a"] rfl
      (List.cons_ne_nil _ _),
   certificate_threshold.2.1⟩

/-- C6: submitting the form with any of title, instructor, or questions
text empty yields the blocking error and no generated script; with all
three non-empty, generation proceeds and the script is displayed. -/
theorem empty_field_validation (env : Env)
    (title instructor quiz_type questions_text : PyStr) :
    ((title = [] ∨ instructor = [] ∨ questions_text = []) →
      handleSubmit env title instructor quiz_type questions_text =
        FormOutcome.error) ∧
    (title ≠ [] → instructor ≠ [] → questions_text ≠ [] →
      handleSubmit env title instructor quiz_type questions_text =
        FormOutcome.code
          (generate_python_code env title instructor quiz_type questions_text)) := by
  constructor
  · intro h
    unfold handleSubmit
    rw [if_pos h]
  · intro ht hi hx
    have hno : ¬(title = [] ∨ instructor = [] ∨ questions_text = []) := by
      push_neg
      exact ⟨ht, hi, hx⟩
    unfold handleSubmit
    rw [if_neg hno]

/-- Witness for C6: an empty title blocks generation. -/
theorem empty_field_validation_witness :
    handleSubmit ⟨0, 0⟩ [] (pstr "Dr") mcLabel (pstr "Q,a,b,c") =
      FormOutcome.error :=
  (empty_field_validation ⟨0, 0⟩ [] (pstr "Dr") mcLabel (pstr "Q,a,b,c")).1
    (Or.inl rfl)

/-- C7 counterexample: the claim that the plaintext correct answer is held
in no field of the embedded record fails when another field coincides with
the answer.  For the text-answer line `"a,a"` the trimmed answer field is
`"a"`, and the produced record's `question` field holds exactly that
plaintext value. -/
theorem record_plaintext_cex :
    parseLine taLabel (pstr "a,a") =
      some ⟨pstr "a", none, sha256hex (pstr "a")⟩ ∧
    answerField taLabel (pstr "a,a") = pstr "a" :=
  ⟨rfl, rfl⟩

/-- C7 (amended): every embedded record carries exactly the fields
`question` (the first trimmed field), `options` (the middle trimmed fields,
multiple-choice only; absent otherwise), and `answer_hash`, which is always
the SHA-256 digest of the lowercased trimmed answer field.  The answer
value as such is stored only in digested form — no field is assigned the
plaintext answer, though `question`/`options` (copies of other input
fields) may coincidentally equal it. -/
theorem record_fields_digest_only (quiz_type line : PyStr) (r : QuestionRecord)
    (h : parseLine quiz_type line = some r) :
    r.question = (lineParts line).headD [] ∧
    r.answer_hash = sha256hex (pyLower (answerField quiz_type line)) ∧
    (quiz_type = mcLabel →
      r.options = some (((lineParts line).drop 1).dropLast)) ∧
    (quiz_type ≠ mcLabel → r.options = none) := by
  unfold parseLine at h
  unfold answerField
  by_cases hm : quiz_type = mcLabel
  · subst hm
    rw [if_pos rfl] at h
    rw [if_pos rfl]
    by_cases h3 : (lineParts line).length < 3
    · rw [if_pos h3] at h
      exact Option.noConfusion h
    · rw [if_neg h3] at h
      injection h with h'
      subst h'
      exact ⟨rfl, rfl, fun _ => rfl, fun hq => absurd rfl hq⟩
  · rw [if_neg hm] at h
    rw [if_neg hm]
    by_cases h2 : (lineParts line).length < 2
    · rw [if_pos h2] at h
      exact Option.noConfusion h
    · rw [if_neg h2] at h
      injection h with h'
      subst h'
      exact ⟨rfl, rfl, fun hq => absurd hq hm, fun _ => rfl⟩

/-- Witness for C7 (amended): the record of the text-answer line `"W, X"`. -/
theorem record_fields_digest_only_witness :
    (⟨pstr "W", none, sha256hex (pyLower (pstr "X"))⟩ : QuestionRecord).question
        = (lineParts (pstr "W, X")).headD [] ∧
    (⟨pstr "W", none, sha256hex (pyLower (pstr "X"))⟩ : QuestionRecord).answer_hash
        = sha256hex (pyLower (answerField taLabel (pstr "W, X"))) ∧
    (taLabel = mcLabel →
      (⟨pstr "W", none, sha256hex (pyLower (pstr "X"))⟩ : QuestionRecord).options
        = some (((lineParts (pstr "W, X")).drop 1).dropLast)) ∧
    (taLabel ≠ mcLabel →
      (⟨pstr "W", none, sha256hex (pyLower (pstr "X"))⟩ : QuestionRecord).options
        = none) :=
  record_fields_digest_only taLabel (pstr "W, X")
    ⟨pstr "W", none, sha256hex (pyLower (pstr "X"))⟩ rfl

/-- C8: the emitted-script text is a function of the four form inputs
alone; two generations under different ambient randomness and clock values
(`Env`) return byte-identical strings, because `generate_python_code` never
reads the environment — `uuid`/`datetime` occur only inside the emitted
literal and run only when the emitted script itself runs. -/
theorem generation_deterministic (e1 e2 : Env)
    (title instructor quiz_type questions_text : PyStr) :
    generate_python_code e1 title instructor quiz_type questions_text =
      generate_python_code e2 title instructor quiz_type questions_text := rfl

/-- C10: grading a quiz with no questions (and correspondingly no answer
inputs) never divides by zero — the `total_questions > 0` conjunct makes
the pass test false for any score — and still returns a result message,
with no certificate. -/
theorem empty_quiz_eval_safe (env : Env) (instructor name : PyStr) :
    eval_quiz env instructor [] name [] =
      some (pstr "Hi " ++ (if pyStrip name = [] then pstr "Anonymous" else name) ++
            pstr ", your score is: " ++ natToDec 0 ++ pstr " / " ++ natToDec 0 ++
            pstr "." ++
            pstr " A score of 80% is required to receive a certificate.",
            none) ∧
    (∀ score, passes score 0 = false) := by
  constructor
  · rfl
  · intro score
    rw [passes_eq_false_iff]
    rintro ⟨h, -⟩
    exact absurd h (by norm_num)
